import Mathlib

/-
  Verification development for the MatchlensAI intake backend.

  The definitions below are a shallow embedding of the code in
  src/backend/src/routes/payments.js (the store / list routes and the
  Cloudinary upload helper), the database schema created by
  setupUpdatedSchema (onboarding_submissions and payments tables, with the
  UNIQUE constraint on payments.order_id), and the PayPal wrapper
  (paypalAPI.captureOrder).

  JavaScript request fields are modelled as Option values (none = the field
  is absent / undefined); JS truthiness on strings treats the empty string
  as falsy, and on numbers treats 0 as falsy.  External effects (Cloudinary
  uploads, the pg connection pool) are modelled by an oracle environment
  and an explicit event trace, so that the claims about "no external I/O
  before rejecting" are statements about the trace.  The SQL transaction is
  modelled by a client holding a committed database and a pending
  (transaction-local) copy: BEGIN copies committed into pending, statements
  mutate pending, COMMIT publishes pending, ROLLBACK discards it.
-/

namespace Matchlens

/-- An image payload as accepted by uploadImagesToCloudinary: either a raw
string (base64 or data URL) or a file object carrying base64 data and an
optional mime type. -/
inductive Image where
  | str (s : String)
  | file (data : String) (mime : Option String)
  deriving DecidableEq, Repr

/-- The embedded onboardingData object of a store request.  Fields other
than name and email are optional (undefined when absent). -/
structure OnboardingData where
  name : String
  email : String
  age : Option Int := none
  datingGoal : Option String := none
  currentMatches : Option String := none
  bodyType : Option String := none
  stylePreference : Option String := none
  ethnicity : Option String := none
  interests : Option (List String) := none
  currentBio : Option String := none
  phone : Option String := none
  weeklyTips : Option Bool := none
  originalPhotos : Option (List Image) := none
  screenshotPhotos : Option (List Image) := none
  deriving DecidableEq, Repr

/-- The body of a POST /api/payments/store request, as destructured by the
route handler. -/
structure StoreRequest where
  orderId : Option String := none
  paymentId : Option String := none
  amount : Option Rat := none
  currency : Option String := none
  packageId : Option String := none
  packageName : Option String := none
  customerEmail : Option String := none
  customerName : Option String := none
  status : Option String := none
  onboardingData : Option OnboardingData := none
  deriving DecidableEq, Repr

/-- A row of the onboarding_submissions table (setupUpdatedSchema):
user_id UUID PRIMARY KEY (generated), the questionnaire columns, and the
two JSONB photo-URL lists.  UUIDs are modelled as generated naturals;
timestamps as a logical clock. -/
structure SubmissionRow where
  user_id : Nat
  name : String
  age : Option Int
  dating_goal : Option String
  current_matches : Option String
  body_type : Option String
  style_preference : Option String
  ethnicity : Option String
  interests : List String
  current_bio : String
  email : String
  phone : String
  weekly_tips : Bool
  original_photos : List String
  screenshot_photos : List String
  created_at : Nat
  deriving DecidableEq, Repr

/-- A row of the payments table (setupUpdatedSchema): payment_id UUID
PRIMARY KEY (generated), user_id REFERENCES onboarding_submissions, and
order_id VARCHAR(255) UNIQUE NOT NULL. -/
structure PaymentRow where
  payment_id : Nat
  user_id : Nat
  order_id : String
  paypal_payment_id : String
  amount : Rat
  currency : String
  package_id : Option String
  package_name : Option String
  customer_email : String
  customer_name : Option String
  status : String
  created_at : Nat
  deriving DecidableEq, Repr

/-- The relational store: the two tables, the generators for the two UUID
primary keys, and a logical clock for created_at. -/
structure DB where
  submissions : List SubmissionRow
  payments : List PaymentRow
  nextUserId : Nat
  nextPaymentId : Nat
  now : Nat
  deriving DecidableEq, Repr

/-- The JSON body sent by res.json / res.status(...).json in the store
route, together with the HTTP status code. -/
structure Response where
  status : Nat
  success : Bool
  message : String
  error : Option String := none
  userId : Option Nat := none
  paymentId : Option Nat := none
  orderId : Option String := none
  deriving DecidableEq, Repr

/-- Externally observable I/O events of one store-request execution: a
Cloudinary upload attempt, pool.getClient, a SQL statement, and
client.release. -/
inductive Event where
  | uploadAttempt (folder : String)
  | dbGetClient
  | dbQuery (stmt : String)
  | dbRelease
  deriving DecidableEq, Repr

/-- Fault injection for the two INSERT statements of the transaction: some
msg means the statement throws with that error message (e.g. a connection
failure); the uniqueness violation on payments.order_id is raised by the
store itself, not by this record. -/
structure DbFaults where
  submissionInsert : Option String := none
  paymentInsert : Option String := none
  deriving DecidableEq, Repr

/-- The external-world oracle: the outcome of uploading one image to one
Cloudinary folder (some url on success, none when the upload throws). -/
structure StoreEnv where
  upload : String → Image → Option String

/-- Everything one execution of the store route produces: the HTTP
response, the database afterwards, the I/O trace, and whether a pool
connection was acquired / released. -/
structure StoreResult where
  resp : Response
  db : DB
  events : List Event
  acquired : Bool
  released : Bool
  deriving DecidableEq, Repr

/-- JS truthiness of an optional string field: absent and empty are falsy. -/
def truthyStr : Option String → Bool
  | none => false
  | some s => !(s == "")

/-- JS truthiness of an optional numeric field: absent and 0 are falsy. -/
def truthyNum : Option Rat → Bool
  | none => false
  | some q => !(q == 0)

/-- The JS expression (v or-else d) on an optional string: the default is
used when the field is absent or falsy (empty). -/
def jsOrStr (v : Option String) (d : String) : String :=
  match v with
  | none => d
  | some s => if s == "" then d else s

/-- The guard at the top of the store route:
if (.orderId or .paymentId or .amount or .customerEmail is falsy) reject. -/
def requiredFieldsOk (req : StoreRequest) : Bool :=
  truthyStr req.orderId && truthyStr req.paymentId &&
    truthyNum req.amount && truthyStr req.customerEmail

/-- uploadImagesToCloudinary: uploads each image of the list in order;
a successful upload pushes its secure_url, a failed one is logged and
skipped (the loop continues with the other images). -/
def uploadImagesToCloudinary (env : StoreEnv) (folder : String) :
    List Image → List String
  | [] => []
  | img :: rest =>
    match env.upload folder img with
    | some url => url :: uploadImagesToCloudinary env folder rest
    | none => uploadImagesToCloudinary env folder rest

/-- Folder used for onboardingData.originalPhotos. -/
def origFolder : String := "matchlens-onboarding-photos"

/-- Folder used for onboardingData.screenshotPhotos. -/
def shotFolder : String := "matchlens-onboarding-screenshots"

/-- The row built by the INSERT INTO onboarding_submissions statement of
the store route, with the RETURNING user_id identity. -/
def mkSubmissionRow (uid t : Nat) (od : OnboardingData)
    (u1 u2 : List String) : SubmissionRow :=
  { user_id := uid
    name := od.name
    age := od.age
    dating_goal := od.datingGoal
    current_matches := od.currentMatches
    body_type := od.bodyType
    style_preference := od.stylePreference
    ethnicity := od.ethnicity
    interests := od.interests.getD []
    current_bio := jsOrStr od.currentBio ""
    email := od.email
    phone := jsOrStr od.phone ""
    weekly_tips := od.weeklyTips.getD false
    original_photos := u1
    screenshot_photos := u2
    created_at := t }

/-- The row built by the INSERT INTO payments statement of the store
route; currency falls back to USD when the request field is falsy. -/
def mkPaymentRow (pid uid t : Nat) (req : StoreRequest) : PaymentRow :=
  { payment_id := pid
    user_id := uid
    order_id := req.orderId.getD ""
    paypal_payment_id := req.paymentId.getD ""
    amount := req.amount.getD 0
    currency := jsOrStr req.currency "USD"
    package_id := req.packageId
    package_name := req.packageName
    customer_email := req.customerEmail.getD ""
    customer_name := req.customerName
    status := req.status.getD ""
    created_at := t }

/-- The postgres error message raised by the UNIQUE constraint on
payments.order_id (setupUpdatedSchema). -/
def duplicateOrderMessage : String :=
  "duplicate key value violates unique constraint payments_order_id_key"

/-- INSERT INTO onboarding_submissions ... RETURNING user_id, applied to a
database state. -/
def DB.insertSubmission (d : DB) (od : OnboardingData)
    (u1 u2 : List String) : SubmissionRow × DB :=
  let row := mkSubmissionRow d.nextUserId d.now od u1 u2
  (row, { d with submissions := d.submissions ++ [row]
                 nextUserId := d.nextUserId + 1
                 now := d.now + 1 })

/-- INSERT INTO payments ... RETURNING payment_id, applied to a database
state; raises the unique-violation error when a row with the same
order_id already exists. -/
def DB.insertPayment (d : DB) (uid : Nat) (req : StoreRequest) :
    Except String (PaymentRow × DB) :=
  if d.payments.any (fun p => p.order_id == req.orderId.getD "") then
    Except.error duplicateOrderMessage
  else
    let row := mkPaymentRow d.nextPaymentId uid d.now req
    Except.ok (row, { d with payments := d.payments ++ [row]
                             nextPaymentId := d.nextPaymentId + 1
                             now := d.now + 1 })

/-- A pooled connection: the shared committed database plus the
transaction-local pending copy. -/
structure Client where
  committed : DB
  pending : DB

/-- BEGIN: start the transaction from the committed state. -/
def Client.beginTx (c : Client) : Client := { c with pending := c.committed }

/-- COMMIT: publish the pending state. -/
def Client.commitTx (c : Client) : Client := { c with committed := c.pending }

/-- ROLLBACK: discard the pending state. -/
def Client.rollbackTx (c : Client) : Client := { c with pending := c.committed }

/-- Response of the missing-required-payment-fields rejection (400). -/
def missingFieldsResponse : Response :=
  { status := 400, success := false, message := "Missing required payment fields" }

/-- Response of the payment-not-completed rejection (400). -/
def notCompletedResponse : Response :=
  { status := 400, success := false
    message := "Payment must be completed before storing questionnaire data" }

/-- Response of the missing-onboarding-data rejection (400). -/
def missingOnboardingResponse : Response :=
  { status := 400, success := false
    message := "Missing required onboarding data (name, email)" }

/-- Response of the outer catch block (500): the generic storage-failure
response, carrying the raw error message of whatever was thrown. -/
def storeFailureResponse (e : String) : Response :=
  { status := 500, success := false, message := "Failed to store payment"
    error := some e }

/-- Success response of the store route: generated user_id, generated
payment_id and echoed orderId. -/
def successResponse (uid pid : Nat) (oid : String) : Response :=
  { status := 200, success := true
    message := "Payment successful - Questionnaire data stored successfully"
    userId := some uid, paymentId := some pid, orderId := some oid }

/-- A rejection that happens before any upload or database access: empty
event trace, no connection acquired. -/
def earlyReject (r : Response) (db : DB) : StoreResult :=
  { resp := r, db := db, events := [], acquired := false, released := false }

/-- One Cloudinary upload attempt event per submitted photo, originals
first, then screenshots (the route uploads the two collections in that
order). -/
def uploadEvents (od : OnboardingData) : List Event :=
  (od.originalPhotos.getD []).map (fun _ => Event.uploadAttempt origFolder) ++
    (od.screenshotPhotos.getD []).map (fun _ => Event.uploadAttempt shotFolder)

/-- The POST /api/payments/store route handler
(src/backend/src/routes/payments.js).  In source order: required payment
fields check, payment-completed gate, onboardingData name/email check,
Cloudinary uploads of the two photo collections, then getClient / BEGIN /
insert onboarding row / insert payment row / COMMIT with ROLLBACK on any
transaction error and release in the finally block; transaction errors are
rethrown into the outer catch which answers with the generic 500 response. -/
def storeHandler (env : StoreEnv) (faults : DbFaults) (req : StoreRequest)
    (db : DB) : StoreResult :=
  if requiredFieldsOk req = false then
    earlyReject missingFieldsResponse db
  else if req.status ≠ some "completed" then
    earlyReject notCompletedResponse db
  else
    match req.onboardingData with
    | none => earlyReject missingOnboardingResponse db
    | some od =>
      if od.name = "" ∨ od.email = "" then
        earlyReject missingOnboardingResponse db
      else
        let origUrls := uploadImagesToCloudinary env origFolder (od.originalPhotos.getD [])
        let shotUrls := uploadImagesToCloudinary env shotFolder (od.screenshotPhotos.getD [])
        let evs := uploadEvents od ++ [Event.dbGetClient, Event.dbQuery "BEGIN"]
        let c1 := Client.beginTx { committed := db, pending := db }
        match faults.submissionInsert with
        | some m =>
          let c2 := c1.rollbackTx
          { resp := storeFailureResponse m, db := c2.committed
            events := evs ++ [Event.dbQuery "INSERT onboarding_submissions",
              Event.dbQuery "ROLLBACK", Event.dbRelease]
            acquired := true, released := true }
        | none =>
          let r1 := c1.pending.insertSubmission od origUrls shotUrls
          let c2 : Client := { c1 with pending := r1.2 }
          match faults.paymentInsert with
          | some m =>
            let c3 := c2.rollbackTx
            { resp := storeFailureResponse m, db := c3.committed
              events := evs ++ [Event.dbQuery "INSERT onboarding_submissions",
                Event.dbQuery "INSERT payments", Event.dbQuery "ROLLBACK",
                Event.dbRelease]
              acquired := true, released := true }
          | none =>
            match c2.pending.insertPayment r1.1.user_id req with
            | Except.error m =>
              let c3 := c2.rollbackTx
              { resp := storeFailureResponse m, db := c3.committed
                events := evs ++ [Event.dbQuery "INSERT onboarding_submissions",
                  Event.dbQuery "INSERT payments", Event.dbQuery "ROLLBACK",
                  Event.dbRelease]
                acquired := true, released := true }
            | Except.ok rp =>
              let c3 : Client := { c2 with pending := rp.2 }
              let c4 := c3.commitTx
              { resp := successResponse r1.1.user_id rp.1.payment_id (req.orderId.getD "")
                db := c4.committed
                events := evs ++ [Event.dbQuery "INSERT onboarding_submissions",
                  Event.dbQuery "INSERT payments", Event.dbQuery "COMMIT",
                  Event.dbRelease]
                acquired := true, released := true }

/-- True when the database already holds a payment row whose order_id
equals the order_id carried by the request (the situation in which the
INSERT INTO payments statement raises the unique violation). -/
def dupRequested (req : StoreRequest) (db : DB) : Bool :=
  db.payments.any (fun p => p.order_id == req.orderId.getD "")

/-- No injected statement faults. -/
def noFaults : DbFaults := {}

/-- Query parameters of GET /api/payments/list; the payments.js list route
reads none of them (its SQL has a hard LIMIT 100). -/
structure ListRequest where
  page : Option Nat := none
  limit : Option Nat := none
  deriving DecidableEq, Repr

/-- Body of the list route's JSON answer. -/
structure ListResponse where
  success : Bool
  payments : List PaymentRow
  count : Nat
  deriving DecidableEq, Repr

/-- Insertion into a list kept in descending created_at order (model of
the ORDER BY p.created_at DESC result order). -/
def insertByCreatedDesc (p : PaymentRow) : List PaymentRow → List PaymentRow
  | [] => [p]
  | q :: rest =>
    if q.created_at ≤ p.created_at then p :: q :: rest
    else q :: insertByCreatedDesc p rest

/-- Sorting by created_at descending (ORDER BY p.created_at DESC). -/
def sortByCreatedDesc : List PaymentRow → List PaymentRow
  | [] => []
  | p :: rest => insertByCreatedDesc p (sortByCreatedDesc rest)

/-- The GET /api/payments/list route: SELECT ... FROM payments p JOIN
onboarding_submissions o ON p.user_id = o.user_id ORDER BY p.created_at
DESC LIMIT 100.  The request object is received but never read: there is
no client-controlled page size. -/
def listHandler (req : ListRequest) (db : DB) : ListResponse :=
  let joined := db.payments.filter
    (fun p => db.submissions.any (fun o => o.user_id == p.user_id))
  let rows := (sortByCreatedDesc joined).take 100
  { success := true, payments := rows, count := rows.length }

/-- A capture object inside a PayPal order result
(purchase_units[i].payments.captures[j]). -/
structure Capture where
  id : String
  capture_status : String
  deriving DecidableEq, Repr

/-- A purchase unit of a PayPal order result, with its captures. -/
structure PurchaseUnit where
  captures : List Capture
  deriving DecidableEq, Repr

/-- The result object of a PayPal orders API call. -/
structure OrderResult where
  id : String
  order_status : String
  purchase_units : List PurchaseUnit
  deriving DecidableEq, Repr

/-- Outcome of client.execute(request) for the capture call: the promise
either resolves with an order result or rejects with an error message. -/
inductive PayPalExec where
  | resolved (r : OrderResult)
  | thrown (msg : String)
  deriving DecidableEq, Repr

/-- The expression result.purchase_units[0].payments.captures[0].id; none
models the TypeError thrown when a level is missing. -/
def firstCapture (r : OrderResult) : Option Capture :=
  match r.purchase_units with
  | [] => none
  | u :: _ =>
    match u.captures with
    | [] => none
    | c :: _ => some c

/-- The object returned by paypalAPI.captureOrder. -/
structure CaptureOutcome where
  success : Bool
  capture : Option OrderResult := none
  paymentId : Option String := none
  error : Option String := none
  deriving DecidableEq, Repr

/-- paypalAPI.captureOrder: execute the OrdersCaptureRequest; when the
promise resolves, answer success with the full order result and the first
capture id; when it rejects (or reading the first capture throws), the
catch block answers success false with the error message (falling back to
the fixed message when the thrown message is empty). -/
def captureOrder (exec : PayPalExec) : CaptureOutcome :=
  match exec with
  | PayPalExec.thrown m =>
    { success := false
      error := some (if m == "" then "Failed to capture PayPal order" else m) }
  | PayPalExec.resolved r =>
    match firstCapture r with
    | none => { success := false, error := some "Cannot read captures of undefined" }
    | some c => { success := true, capture := some r, paymentId := some c.id }

/-- Modelled from the spec: section 6 describes the external payment
processor's order-capture endpoint as idempotent on an already-captured
order — invoking capture again resolves normally and returns the original
order result (capture id / status / amount / payer) rather than an error.
This definition is that contract: the already-captured call is a resolved
execution carrying the original record. -/
def alreadyCapturedResponse (original : OrderResult) : PayPalExec :=
  PayPalExec.resolved original

/-- Enum of datingGoal in validateOnboardingData. -/
def datingGoalEnum : List String := ["serious", "casual", "friends", "explore"]

/-- Enum of currentMatches in validateOnboardingData. -/
def currentMatchesEnum : List String := ["0-2", "3-5", "6-10", "10+"]

/-- Enum of bodyType in validateOnboardingData. -/
def bodyTypeEnum : List String := ["slim", "average", "athletic", "curvy", "muscular"]

/-- Enum of stylePreference in validateOnboardingData. -/
def stylePreferenceEnum : List String :=
  ["casual", "professional", "trendy", "classic", "edgy"]

/-- Enum of ethnicity in validateOnboardingData. -/
def ethnicityEnum : List String :=
  ["white", "black", "hispanic", "asian", "middle-eastern", "mixed", "other"]

/-- Oracle on which every Cloudinary upload fails. -/
def envAllFail : StoreEnv := { upload := fun _ _ => none }

/-- Oracle on which every Cloudinary upload succeeds with a fixed URL. -/
def envAllOk : StoreEnv :=
  { upload := fun _ _ => some "https://res.cloudinary.com/demo/image.jpg" }

/-- The empty database, as set up by setupUpdatedSchema. -/
def db0 : DB :=
  { submissions := [], payments := [], nextUserId := 1, nextPaymentId := 1, now := 0 }

/-- A well-formed onboardingData payload with three original photos. -/
def odSample : OnboardingData :=
  { name := "Alice", email := "alice@example.com", age := some 27
    datingGoal := some "serious", currentMatches := some "0-2"
    bodyType := some "average", stylePreference := some "casual"
    ethnicity := some "other", interests := some ["travel", "fitness"]
    currentBio := some "hello", phone := some "1234567890"
    weeklyTips := some true
    originalPhotos := some [Image.str "aaa", Image.str "bbb", Image.str "ccc"]
    screenshotPhotos := some [] }

/-- A fully valid store request with a completed payment status. -/
def reqSample : StoreRequest :=
  { orderId := some "ORD-1", paymentId := some "PAY-1", amount := some 100
    currency := some "USD", packageId := some "professional"
    packageName := some "Professional Package"
    customerEmail := some "alice@example.com", customerName := some "Alice"
    status := some "completed", onboardingData := some odSample }

/-- A store request whose status is pending and whose orderId is absent. -/
def reqPendingNoOrder : StoreRequest :=
  { paymentId := some "PAY-2", amount := some 100
    customerEmail := some "bob@example.com", status := some "pending"
    onboardingData := some odSample }

/-- A valid pending-free request missing only customerEmail. -/
def reqNoEmail : StoreRequest :=
  { orderId := some "ORD-3", paymentId := some "PAY-3", amount := some 100
    status := some "completed", onboardingData := some odSample }

/-- Faults simulating a connection failure on the payments INSERT. -/
def faultPay : DbFaults :=
  { paymentInsert := some "connection terminated unexpectedly" }

/-- An onboardingData payload whose datingGoal lies outside the enum of
validateOnboardingData. -/
def odBadGoal : OnboardingData :=
  { name := "Mallory", email := "mallory@example.com"
    datingGoal := some "world-domination", currentMatches := some "0-2"
    bodyType := some "average", stylePreference := some "casual"
    ethnicity := some "other", interests := some ["chess"] }

/-- A store request carrying the out-of-enum datingGoal. -/
def reqBadGoal : StoreRequest :=
  { orderId := some "ORD-8", paymentId := some "PAY-8", amount := some 100
    currency := some "USD", packageId := some "pro"
    packageName := some "Pro", customerEmail := some "mallory@example.com"
    customerName := some "Mallory", status := some "completed"
    onboardingData := some odBadGoal }

/-- A store request that omits the currency field entirely. -/
def reqNoCurrency : StoreRequest :=
  { orderId := some "ORD-10", paymentId := some "PAY-10", amount := some 100
    packageId := some "starter", packageName := some "Starter"
    customerEmail := some "carol@example.com", customerName := some "Carol"
    status := some "completed", onboardingData := some odSample }

/-- The canonical capture record of an already-captured PayPal order. -/
def orderResultSample : OrderResult :=
  { id := "ORD-PP-7", order_status := "COMPLETED"
    purchase_units :=
      [{ captures := [{ id := "CAP-7", capture_status := "COMPLETED" }] }] }

/-- The upload helper keeps exactly the successful uploads, in input
order: it is List.filterMap over the per-image oracle. -/
theorem uploadImagesToCloudinary_eq_filterMap (env : StoreEnv) (folder : String)
    (l : List Image) :
    uploadImagesToCloudinary env folder l = l.filterMap (env.upload folder) := by
  induction l with
  | nil => rfl
  | cons i rest ih =>
    rw [uploadImagesToCloudinary, List.filterMap_cons]
    cases h : env.upload folder i <;> simp [h, ih]

/-- On a valid request with no injected faults and a fresh order_id, the
store handler commits both rows and answers the receipt; this lemma gives
the full execution result. -/
theorem storeHandler_commit_eq (env : StoreEnv) (faults : DbFaults)
    (req : StoreRequest) (db : DB) (od : OnboardingData) (o : String)
    (hreq : requiredFieldsOk req = true)
    (hst : req.status = some "completed")
    (hod : req.onboardingData = some od)
    (hname : ¬ od.name = "") (hemail : ¬ od.email = "")
    (hf1 : faults.submissionInsert = none)
    (hf2 : faults.paymentInsert = none)
    (ho : req.orderId = some o)
    (hfresh : db.payments.any (fun p => p.order_id == o) = false) :
    storeHandler env faults req db =
      { resp := successResponse db.nextUserId db.nextPaymentId o
        db :=
          { submissions := db.submissions ++
              [mkSubmissionRow db.nextUserId db.now od
                (uploadImagesToCloudinary env origFolder (od.originalPhotos.getD []))
                (uploadImagesToCloudinary env shotFolder (od.screenshotPhotos.getD []))]
            payments := db.payments ++
              [mkPaymentRow db.nextPaymentId db.nextUserId (db.now + 1) req]
            nextUserId := db.nextUserId + 1
            nextPaymentId := db.nextPaymentId + 1
            now := db.now + 2 }
        events := uploadEvents od ++ [Event.dbGetClient, Event.dbQuery "BEGIN",
          Event.dbQuery "INSERT onboarding_submissions",
          Event.dbQuery "INSERT payments", Event.dbQuery "COMMIT",
          Event.dbRelease]
        acquired := true, released := true } := by
  rw [storeHandler, hreq, hst, hod]
  rw [if_neg (by simp), if_neg (by simp)]
  dsimp only
  rw [if_neg (not_or.mpr ⟨hname, hemail⟩)]
  simp only [Client.beginTx, hf1, hf2, DB.insertSubmission, DB.insertPayment, ho,
    Option.getD_some, Client.commitTx, Client.rollbackTx]
  rw [if_neg (by simp [hfresh])]
  simp [mkSubmissionRow, mkPaymentRow]

/-- Claim C1: for every intake request that passes validation and carries
a fresh order_id, the store operation commits exactly one
ProfileSubmission row and exactly one PaymentRecord row in one
transaction, the PaymentRecord's user_id equals the generated identity of
that ProfileSubmission, and the success response carries the generated
user_id, the generated payment_id and the echoed order_id. -/
theorem store_fresh_order_commits_linked_pair
    (env : StoreEnv) (req : StoreRequest) (db : DB) (od : OnboardingData)
    (o : String)
    (hreq : requiredFieldsOk req = true)
    (hst : req.status = some "completed")
    (hod : req.onboardingData = some od)
    (hname : ¬ od.name = "") (hemail : ¬ od.email = "")
    (ho : req.orderId = some o)
    (hfresh : db.payments.any (fun p => p.order_id == o) = false) :
    ∃ sub pay,
      (storeHandler env noFaults req db).db.submissions = db.submissions ++ [sub] ∧
      (storeHandler env noFaults req db).db.payments = db.payments ++ [pay] ∧
      sub.user_id = db.nextUserId ∧
      pay.user_id = sub.user_id ∧
      pay.payment_id = db.nextPaymentId ∧
      (storeHandler env noFaults req db).resp =
        successResponse db.nextUserId db.nextPaymentId o := by
  rw [storeHandler_commit_eq env noFaults req db od o hreq hst hod hname hemail
    rfl rfl ho hfresh]
  exact ⟨_, _, rfl, rfl, rfl, rfl, rfl, rfl⟩

/-- Witness for C1: the sample valid request against the empty database. -/
theorem store_fresh_order_commits_linked_pair_witness :
    (requiredFieldsOk reqSample = true ∧
      reqSample.status = some "completed" ∧
      reqSample.onboardingData = some odSample ∧
      ¬ odSample.name = "" ∧ ¬ odSample.email = "" ∧
      reqSample.orderId = some "ORD-1" ∧
      db0.payments.any (fun p => p.order_id == "ORD-1") = false) ∧
    ∃ sub pay,
      (storeHandler envAllOk noFaults reqSample db0).db.submissions =
        db0.submissions ++ [sub] ∧
      (storeHandler envAllOk noFaults reqSample db0).db.payments =
        db0.payments ++ [pay] ∧
      sub.user_id = db0.nextUserId ∧
      pay.user_id = sub.user_id ∧
      pay.payment_id = db0.nextPaymentId ∧
      (storeHandler envAllOk noFaults reqSample db0).resp =
        successResponse db0.nextUserId db0.nextPaymentId "ORD-1" :=
  ⟨⟨by decide, rfl, rfl, by decide, by decide, rfl, by decide⟩,
    store_fresh_order_commits_linked_pair envAllOk reqSample db0 odSample "ORD-1"
      (by decide) rfl rfl (by decide) (by decide) rfl (by decide)⟩

/-- Claim C4: a store request missing customerEmail, orderId, paymentId or
amount is rejected with the validation error, with zero rows written and
an empty I/O trace (no upload, no database access, no connection
acquired). -/
theorem missing_required_field_rejected_cleanly
    (env : StoreEnv) (faults : DbFaults) (req : StoreRequest) (db : DB)
    (h : req.orderId = none ∨ req.paymentId = none ∨ req.amount = none ∨
      req.customerEmail = none) :
    storeHandler env faults req db =
      { resp := missingFieldsResponse, db := db, events := []
        acquired := false, released := false } := by
  have hfields : requiredFieldsOk req = false := by
    rcases h with h | h | h | h <;> simp [requiredFieldsOk, h, truthyStr, truthyNum]
  rw [storeHandler, hfields]
  rfl

/-- Witness for C4: a request missing only customerEmail is rejected with
no side effects. -/
theorem missing_required_field_rejected_cleanly_witness :
    (reqNoEmail.orderId = none ∨ reqNoEmail.paymentId = none ∨
      reqNoEmail.amount = none ∨ reqNoEmail.customerEmail = none) ∧
    storeHandler envAllOk noFaults reqNoEmail db0 =
      { resp := missingFieldsResponse, db := db0, events := []
        acquired := false, released := false } :=
  ⟨Or.inr (Or.inr (Or.inr rfl)),
    missing_required_field_rejected_cleanly envAllOk noFaults reqNoEmail db0
      (Or.inr (Or.inr (Or.inr rfl)))⟩

/-- Claim C3, counterexample: a request whose declared status is pending
but which is also missing its orderId is answered with the
missing-required-fields validation response, not with the
payment-not-completed response — so a non-completed status does not always
produce the PaymentNotCompletedError outcome. -/
theorem non_completed_claim_counterexample :
    reqPendingNoOrder.status ≠ some "completed" ∧
    (storeHandler envAllFail noFaults reqPendingNoOrder db0).resp =
      missingFieldsResponse ∧
    missingFieldsResponse ≠ notCompletedResponse := by decide

/-- Claim C3 (amended): every store request that passes the
required-payment-fields check and whose declared status is not the string
completed is rejected with the payment-not-completed response, with zero
rows written and an empty I/O trace. -/
theorem non_completed_status_rejected_cleanly
    (env : StoreEnv) (faults : DbFaults) (req : StoreRequest) (db : DB)
    (hreq : requiredFieldsOk req = true)
    (hst : req.status ≠ some "completed") :
    storeHandler env faults req db =
      { resp := notCompletedResponse, db := db, events := []
        acquired := false, released := false } := by
  rw [storeHandler, hreq]
  rw [if_neg (by simp), if_pos hst]
  rfl

/-- Witness for C3: a field-complete request with status pending is
rejected with the payment-not-completed response and no side effects. -/
theorem non_completed_status_rejected_cleanly_witness :
    (requiredFieldsOk { reqSample with status := some "pending" } = true ∧
      ({ reqSample with status := some "pending" } : StoreRequest).status ≠
        some "completed") ∧
    storeHandler envAllOk noFaults { reqSample with status := some "pending" } db0 =
      { resp := notCompletedResponse, db := db0, events := []
        acquired := false, released := false } :=
  ⟨⟨by decide, by decide⟩,
    non_completed_status_rejected_cleanly envAllOk noFaults
      { reqSample with status := some "pending" } db0 (by decide) (by decide)⟩

/-- Claim C10: a store request that omits the currency field, or supplies
a falsy (empty) value for it, still commits, and the committed
PaymentRecord's currency is the default USD. -/
theorem omitted_currency_defaults_to_usd
    (env : StoreEnv) (req : StoreRequest) (db : DB) (od : OnboardingData)
    (o : String)
    (hreq : requiredFieldsOk req = true)
    (hst : req.status = some "completed")
    (hod : req.onboardingData = some od)
    (hname : ¬ od.name = "") (hemail : ¬ od.email = "")
    (ho : req.orderId = some o)
    (hfresh : db.payments.any (fun p => p.order_id == o) = false)
    (hcur : req.currency = none ∨ req.currency = some "") :
    (storeHandler env noFaults req db).resp.success = true ∧
    ∃ pay,
      (storeHandler env noFaults req db).db.payments = db.payments ++ [pay] ∧
      pay.currency = "USD" := by
  rw [storeHandler_commit_eq env noFaults req db od o hreq hst hod hname hemail
    rfl rfl ho hfresh]
  refine ⟨rfl, _, rfl, ?_⟩
  rcases hcur with h | h <;> simp [mkPaymentRow, jsOrStr, h]

/-- Witness for C10: the currency-free request commits with currency USD. -/
theorem omitted_currency_defaults_to_usd_witness :
    (requiredFieldsOk reqNoCurrency = true ∧
      reqNoCurrency.status = some "completed" ∧
      reqNoCurrency.onboardingData = some odSample ∧
      ¬ odSample.name = "" ∧ ¬ odSample.email = "" ∧
      reqNoCurrency.orderId = some "ORD-10" ∧
      db0.payments.any (fun p => p.order_id == "ORD-10") = false ∧
      (reqNoCurrency.currency = none ∨ reqNoCurrency.currency = some "")) ∧
    (storeHandler envAllOk noFaults reqNoCurrency db0).resp.success = true ∧
    ∃ pay,
      (storeHandler envAllOk noFaults reqNoCurrency db0).db.payments =
        db0.payments ++ [pay] ∧
      pay.currency = "USD" :=
  ⟨⟨by decide, rfl, rfl, by decide, by decide, rfl, by decide, Or.inl rfl⟩,
    omitted_currency_defaults_to_usd envAllOk reqNoCurrency db0 odSample "ORD-10"
      (by decide) rfl rfl (by decide) (by decide) rfl (by decide) (Or.inl rfl)⟩

/-- Claim C6: individual photo-upload failures are dropped from the URL
lists without aborting the workflow — on a valid fresh request the
transaction still commits, the stored photo-URL lists hold exactly the
successful uploads in input order (empty lists when every upload failed),
and the response is success true. -/
theorem failed_uploads_dropped_commit_succeeds
    (env : StoreEnv) (req : StoreRequest) (db : DB) (od : OnboardingData)
    (o : String)
    (hreq : requiredFieldsOk req = true)
    (hst : req.status = some "completed")
    (hod : req.onboardingData = some od)
    (hname : ¬ od.name = "") (hemail : ¬ od.email = "")
    (ho : req.orderId = some o)
    (hfresh : db.payments.any (fun p => p.order_id == o) = false) :
    (storeHandler env noFaults req db).resp.success = true ∧
    (storeHandler env noFaults req db).db.payments.length =
      db.payments.length + 1 ∧
    ∃ sub,
      (storeHandler env noFaults req db).db.submissions = db.submissions ++ [sub] ∧
      sub.original_photos =
        (od.originalPhotos.getD []).filterMap (env.upload origFolder) ∧
      sub.screenshot_photos =
        (od.screenshotPhotos.getD []).filterMap (env.upload shotFolder) ∧
      ((∀ i ∈ od.originalPhotos.getD [], env.upload origFolder i = none) →
        sub.original_photos = []) ∧
      ((∀ i ∈ od.screenshotPhotos.getD [], env.upload shotFolder i = none) →
        sub.screenshot_photos = []) := by
  rw [storeHandler_commit_eq env noFaults req db od o hreq hst hod hname hemail
    rfl rfl ho hfresh]
  refine ⟨rfl, by simp, _, rfl, ?_, ?_, ?_, ?_⟩
  · exact uploadImagesToCloudinary_eq_filterMap env origFolder _
  · exact uploadImagesToCloudinary_eq_filterMap env shotFolder _
  · intro hall
    simpa [mkSubmissionRow, uploadImagesToCloudinary_eq_filterMap] using
      List.filterMap_eq_nil_iff.mpr hall
  · intro hall
    simpa [mkSubmissionRow, uploadImagesToCloudinary_eq_filterMap] using
      List.filterMap_eq_nil_iff.mpr hall

/-- Witness for C6: the sample request with three original photos, run
against the oracle on which every upload fails: the commit still happens
and both stored URL lists are empty. -/
theorem failed_uploads_dropped_commit_succeeds_witness :
    (requiredFieldsOk reqSample = true ∧
      reqSample.status = some "completed" ∧
      reqSample.onboardingData = some odSample ∧
      ¬ odSample.name = "" ∧ ¬ odSample.email = "" ∧
      reqSample.orderId = some "ORD-1" ∧
      db0.payments.any (fun p => p.order_id == "ORD-1") = false) ∧
    (storeHandler envAllFail noFaults reqSample db0).resp.success = true ∧
    (storeHandler envAllFail noFaults reqSample db0).db.payments.length =
      db0.payments.length + 1 ∧
    ∃ sub,
      (storeHandler envAllFail noFaults reqSample db0).db.submissions =
        db0.submissions ++ [sub] ∧
      sub.original_photos =
        (odSample.originalPhotos.getD []).filterMap (envAllFail.upload origFolder) ∧
      sub.screenshot_photos =
        (odSample.screenshotPhotos.getD []).filterMap (envAllFail.upload shotFolder) ∧
      ((∀ i ∈ odSample.originalPhotos.getD [],
          envAllFail.upload origFolder i = none) → sub.original_photos = []) ∧
      ((∀ i ∈ odSample.screenshotPhotos.getD [],
          envAllFail.upload shotFolder i = none) → sub.screenshot_photos = []) :=
  ⟨⟨by decide, rfl, rfl, by decide, by decide, rfl, by decide⟩,
    failed_uploads_dropped_commit_succeeds envAllFail reqSample db0 odSample
      "ORD-1" (by decide) rfl rfl (by decide) (by decide) rfl (by decide)⟩

/-- Claim C2, counterexample: submitting the sample request twice commits
only one payment row, but the second attempt is answered with HTTP 500 and
the same generic message as an unrelated storage failure (an injected
connection failure): nothing in the status or message marks it as a
conflict, so the unique-constraint violation is not translated into a
distinct conflict response. -/
theorem duplicate_order_generic_counterexample :
    ((storeHandler envAllOk noFaults reqSample
        (storeHandler envAllOk noFaults reqSample db0).db).db.payments.length = 1) ∧
    ((storeHandler envAllOk noFaults reqSample
        (storeHandler envAllOk noFaults reqSample db0).db).resp.status = 500) ∧
    ((storeHandler envAllOk noFaults reqSample
        (storeHandler envAllOk noFaults reqSample db0).db).resp.message =
      "Failed to store payment") ∧
    ((storeHandler envAllOk noFaults reqSample
        (storeHandler envAllOk noFaults reqSample db0).db).resp.status =
      (storeHandler envAllOk faultPay reqSample db0).resp.status) ∧
    ((storeHandler envAllOk noFaults reqSample
        (storeHandler envAllOk noFaults reqSample db0).db).resp.message =
      (storeHandler envAllOk faultPay reqSample db0).resp.message) := by
  decide

/-- Claim C2 (amended): a second store request with an order_id that is
already committed never creates a second PaymentRecord — the transaction
rolls back and the database is unchanged — but the unique-constraint
violation is surfaced through the generic 500 storage-failure response
(message Failed to store payment, raw database error attached), not
through a distinct conflict response. -/
theorem duplicate_order_rolls_back_to_generic_500
    (env : StoreEnv) (req : StoreRequest) (db : DB) (od : OnboardingData)
    (o : String)
    (hreq : requiredFieldsOk req = true)
    (hst : req.status = some "completed")
    (hod : req.onboardingData = some od)
    (hname : ¬ od.name = "") (hemail : ¬ od.email = "")
    (ho : req.orderId = some o)
    (hdup : db.payments.any (fun p => p.order_id == o) = true) :
    (storeHandler env noFaults req db).db = db ∧
    (storeHandler env noFaults req db).resp =
      storeFailureResponse duplicateOrderMessage := by
  rw [storeHandler, hreq, hst, hod]
  rw [if_neg (by simp), if_neg (by simp)]
  dsimp only
  rw [if_neg (not_or.mpr ⟨hname, hemail⟩)]
  simp only [noFaults, Client.beginTx, DB.insertSubmission, DB.insertPayment, ho,
    Option.getD_some, Client.rollbackTx]
  rw [if_pos hdup]
  exact ⟨rfl, rfl⟩

/-- Witness for C2: the duplicate of the sample request against a database
already holding its order row. -/
theorem duplicate_order_rolls_back_to_generic_500_witness :
    (requiredFieldsOk reqSample = true ∧
      reqSample.status = some "completed" ∧
      reqSample.onboardingData = some odSample ∧
      ¬ odSample.name = "" ∧ ¬ odSample.email = "" ∧
      reqSample.orderId = some "ORD-1" ∧
      ((storeHandler envAllOk noFaults reqSample db0).db.payments.any
        (fun p => p.order_id == "ORD-1")) = true) ∧
    (storeHandler envAllOk noFaults reqSample
      (storeHandler envAllOk noFaults reqSample db0).db).db =
      (storeHandler envAllOk noFaults reqSample db0).db ∧
    (storeHandler envAllOk noFaults reqSample
      (storeHandler envAllOk noFaults reqSample db0).db).resp =
      storeFailureResponse duplicateOrderMessage :=
  ⟨⟨by decide, rfl, rfl, by decide, by decide, rfl, by decide⟩,
    duplicate_order_rolls_back_to_generic_500 envAllOk reqSample
      (storeHandler envAllOk noFaults reqSample db0).db odSample "ORD-1"
      (by decide) rfl rfl (by decide) (by decide) rfl (by decide)⟩

/-- Claim C5: on every execution of the store route a connection is
released exactly when it was acquired (success path and failure path
alike), and whenever a statement of the commit step fails — an injected
failure of either INSERT, or the unique violation raised because the
order_id is already present — the whole transaction rolls back, so the
database afterwards equals the database before (no orphan parent row) and
the response is a failure. -/
theorem txn_failure_full_rollback_and_release
    (env : StoreEnv) (faults : DbFaults) (req : StoreRequest) (db : DB) :
    ((storeHandler env faults req db).released =
      (storeHandler env faults req db).acquired) ∧
    ((faults.submissionInsert.isSome ∨ faults.paymentInsert.isSome ∨
        dupRequested req db = true) →
      (storeHandler env faults req db).db = db ∧
      (storeHandler env faults req db).resp.success = false) := by
  rw [storeHandler]
  split
  · exact ⟨rfl, fun _ => ⟨rfl, rfl⟩⟩
  · split
    · exact ⟨rfl, fun _ => ⟨rfl, rfl⟩⟩
    · split
      · exact ⟨rfl, fun _ => ⟨rfl, rfl⟩⟩
      · split
        · exact ⟨rfl, fun _ => ⟨rfl, rfl⟩⟩
        · dsimp only
          split
          · exact ⟨rfl, fun _ => ⟨rfl, rfl⟩⟩
          · split
            · exact ⟨rfl, fun _ => ⟨rfl, rfl⟩⟩
            · split
              · exact ⟨rfl, fun _ => ⟨rfl, rfl⟩⟩
              · rename_i a hsubnone b hpaynone c rp hok
                refine ⟨rfl, fun hfail => ?_⟩
                exfalso
                rcases hfail with h | h | h
                · rw [hsubnone] at h
                  simp at h
                · rw [hpaynone] at h
                  simp at h
                · rw [dupRequested] at h
                  rw [DB.insertPayment] at hok
                  simp only [Client.beginTx, DB.insertSubmission] at hok
                  rw [if_pos h] at hok
                  exact Except.noConfusion hok

/-- Witness for C5: an injected connection failure on the payments INSERT
after a successful submission INSERT — the connection is still released and
no row of either table survives. -/
theorem txn_failure_full_rollback_and_release_witness :
    (faultPay.submissionInsert.isSome ∨ faultPay.paymentInsert.isSome ∨
      dupRequested reqSample db0 = true) ∧
    ((storeHandler envAllOk faultPay reqSample db0).released =
      (storeHandler envAllOk faultPay reqSample db0).acquired) ∧
    (storeHandler envAllOk faultPay reqSample db0).db = db0 ∧
    (storeHandler envAllOk faultPay reqSample db0).resp.success = false :=
  ⟨Or.inr (Or.inl (by decide)),
    (txn_failure_full_rollback_and_release envAllOk faultPay reqSample db0).1,
    ((txn_failure_full_rollback_and_release envAllOk faultPay reqSample db0).2
      (Or.inr (Or.inl (by decide)))).1,
    ((txn_failure_full_rollback_and_release envAllOk faultPay reqSample db0).2
      (Or.inr (Or.inl (by decide)))).2⟩

/-- Claim C7: the processor's capture endpoint is idempotent on an
already-captured order (section 6 of the spec: such a call resolves with
the original order record), and captureOrder forwards every resolved
capture as a success outcome carrying the full capture record and the
original capture id — it never turns the already-captured response into a
failure. -/
theorem capture_already_captured_is_success
    (original : OrderResult) (c : Capture)
    (hcap : firstCapture original = some c) :
    captureOrder (alreadyCapturedResponse original) =
      { success := true, capture := some original, paymentId := some c.id } := by
  rw [alreadyCapturedResponse, captureOrder, hcap]

/-- Witness for C7: a concrete already-captured order record. -/
theorem capture_already_captured_is_success_witness :
    firstCapture orderResultSample =
      some { id := "CAP-7", capture_status := "COMPLETED" } ∧
    captureOrder (alreadyCapturedResponse orderResultSample) =
      { success := true, capture := some orderResultSample
        paymentId := some "CAP-7" } :=
  ⟨rfl, capture_already_captured_is_success orderResultSample
    { id := "CAP-7", capture_status := "COMPLETED" } rfl⟩

/-- Claim C8, on the code as shipped: the enumerated sets of
validateOnboardingData are never applied to the store route — a store
request whose datingGoal lies outside the declared enum passes the
route's only onboarding check (name and email) and is committed, dating
goal included, with a success response, instead of being rejected. -/
theorem out_of_enum_dating_goal_committed :
    datingGoalEnum.contains "world-domination" = false ∧
    (storeHandler envAllFail noFaults reqBadGoal db0).resp.success = true ∧
    (storeHandler envAllFail noFaults reqBadGoal db0).db.submissions.map
      (fun s => s.dating_goal) = [some "world-domination"] := by
  decide

/-- Membership of the descending insertion: inserting p adds exactly p. -/
theorem mem_insertByCreatedDesc {x p : PaymentRow} {l : List PaymentRow} :
    x ∈ insertByCreatedDesc p l ↔ x = p ∨ x ∈ l := by
  induction l with
  | nil => simp [insertByCreatedDesc]
  | cons q rest ih =>
    rw [insertByCreatedDesc]
    by_cases hq : q.created_at ≤ p.created_at
    · simp [hq]
    · rw [if_neg hq]
      simp only [List.mem_cons, ih]
      tauto

/-- Descending insertion preserves the descending pairwise order. -/
theorem pairwise_insertByCreatedDesc (p : PaymentRow) (l : List PaymentRow)
    (h : l.Pairwise (fun a b => b.created_at ≤ a.created_at)) :
    (insertByCreatedDesc p l).Pairwise
      (fun a b => b.created_at ≤ a.created_at) := by
  induction l with
  | nil => simp [insertByCreatedDesc]
  | cons q rest ih =>
    rw [insertByCreatedDesc]
    rw [List.pairwise_cons] at h
    obtain ⟨hq_rest, hrest⟩ := h
    by_cases hq : q.created_at ≤ p.created_at
    · rw [if_pos hq, List.pairwise_cons]
      refine ⟨?_, List.pairwise_cons.mpr ⟨hq_rest, hrest⟩⟩
      intro x hx
      rcases List.mem_cons.mp hx with rfl | hx
      · exact hq
      · exact le_trans (hq_rest x hx) hq
    · rw [if_neg hq, List.pairwise_cons]
      refine ⟨?_, ih hrest⟩
      intro x hx
      rcases mem_insertByCreatedDesc.mp hx with rfl | hx
      · exact le_of_not_le hq
      · exact hq_rest x hx

/-- The sort by created_at descending is pairwise descending. -/
theorem pairwise_sortByCreatedDesc (l : List PaymentRow) :
    (sortByCreatedDesc l).Pairwise (fun a b => b.created_at ≤ a.created_at) := by
  induction l with
  | nil => simp [sortByCreatedDesc]
  | cons p rest ih =>
    rw [sortByCreatedDesc]
    exact pairwise_insertByCreatedDesc p _ ih

/-- Claim C9: the list route always returns payment records ordered by
created_at descending, and never more than the hard cap of 100 rows —
whatever the database holds and whatever page size the request carries
(the route reads no query parameter at all). -/
theorem list_returns_capped_sorted_desc (req : ListRequest) (db : DB) :
    (listHandler req db).payments.length ≤ 100 ∧
    (listHandler req db).payments.Pairwise
      (fun a b => b.created_at ≤ a.created_at) := by
  constructor
  · exact List.length_take_le 100 _
  · exact (pairwise_sortByCreatedDesc _).sublist (List.take_sublist 100 _)

end Matchlens
